import Mathlib

/-!
Verification development for the travelagent repository
(src/travelagent/models.py, src/travelagent/parallel_agents.py,
src/travelagent/main.py).

The Python program is shallowly embedded:

* Python dict/JSON values become the inductive `JsonVal`.
* The `TravelState` TypedDict becomes the structure `TravelState`; the six
  result fields are `Option ResultPayload` where `none` models the empty
  dict `\x7b\x7d` the driver puts there initially (a dict with no
  "analysis" entry).
* A node's returned partial-state dict becomes `StatePatch`, a record of
  `Option` fields; a `none` field models an absent key.
* The LLM chain `prompt | llm | StrOutputParser()` together with
  `chain.invoke(vars)` is abstracted as a function
  `GenFun : VarMap → Except TravelError String`; agents are parameterised
  by it and additionally return the list of variable maps they passed to
  `chain.invoke`, so that call counts and call arguments are visible.
* Error values follow the spec's error taxonomy (section 7): the Python
  KeyError raised when a result dict has no "analysis" entry is named
  `MissingDependencyError`, a failing generation call raises
  `GenerationError`.
-/

namespace TravelAgent

/-- JSON-like values, modelling the Python dicts / lists / strings used by
the mock search providers in src/travelagent/models.py. -/
inductive JsonVal where
  | str : String → JsonVal
  | bool : Bool → JsonVal
  | arr : List JsonVal → JsonVal
  | obj : List (String × JsonVal) → JsonVal

mutual

/-- Model of Python's json.dumps on `JsonVal` (src/travelagent/parallel_agents.py
serialises search data with json.dumps(..., indent=2); the exact whitespace of
the rendering is immaterial to every claim, so a compact rendering is used). -/
def JsonVal.dumps : JsonVal → String
  | .str s => "\"" ++ s ++ "\""
  | .bool b => if b then "true" else "false"
  | .arr xs => "[" ++ String.intercalate ", " (JsonVal.dumpsList xs) ++ "]"
  | .obj kvs => "\x7b" ++ String.intercalate ", " (JsonVal.dumpsObj kvs) ++ "\x7d"

/-- Renders each element of a JSON array. -/
def JsonVal.dumpsList : List JsonVal → List String
  | [] => []
  | x :: xs => JsonVal.dumps x :: JsonVal.dumpsList xs

/-- Renders each key/value pair of a JSON object. -/
def JsonVal.dumpsObj : List (String × JsonVal) → List String
  | [] => []
  | (k, v) :: xs => ("\"" ++ k ++ "\": " ++ JsonVal.dumps v) :: JsonVal.dumpsObj xs

end

/-- models.py, mock_flight_search: returns the fixed flight options dict;
the budget argument is accepted but not used, exactly as in the source. -/
def mock_flight_search (destination : String) (dates : String) (budget : String) : JsonVal :=
  .obj [
    ("flights", .arr [
      .obj [("airline", .str "Ryanair"), ("price", .str "$450"),
            ("departure", .str "8:30 AM"), ("arrival", .str "2:15 PM"),
            ("duration", .str "1h 45m")],
      .obj [("airline", .str "Aer Lingus"), ("price", .str "$420"),
            ("departure", .str "1:20 PM"), ("arrival", .str "7:05 PM"),
            ("duration", .str "1h 45m")]]),
    ("destination", .str destination),
    ("search_dates", .str dates)]

/-- models.py, mock_hotel_search: returns the fixed hotel options dict;
the budget argument is accepted but not used, exactly as in the source. -/
def mock_hotel_search (destination : String) (dates : String) (budget : String) : JsonVal :=
  .obj [
    ("hotels", .arr [
      .obj [("name", .str "Hotel Catalonia"), ("price", .str "$150/night"),
            ("rating", .str "4.5/5"),
            ("amenities", .arr [.str "Pool", .str "Gym", .str "WiFi", .str "Breakfast"])],
      .obj [("name", .str "NH Hotels"), ("price", .str "$89/night"),
            ("rating", .str "4.2/5"),
            ("amenities", .arr [.str "WiFi", .str "Parking", .str "24h Front Desk"])]]),
    ("destination", .str destination),
    ("search_dates", .str dates)]

/-- models.py, mock_events_search: fixed event options dict. -/
def mock_events_search (destination : String) (dates : String) : JsonVal :=
  .obj [
    ("events", .arr [
      .obj [("name", .str "Local Art Festival"), ("date", .str "Weekend"),
            ("price", .str "Free"), ("category", .str "Arts & Culture")],
      .obj [("name", .str "Food & Wine Tour"), ("date", .str "Daily"),
            ("price", .str "$75"), ("category", .str "Food & Drink")]]),
    ("destination", .str destination)]

/-- models.py, mock_restaurant_search: fixed restaurant options dict; the
source function takes only the destination. -/
def mock_restaurant_search (destination : String) : JsonVal :=
  .obj [
    ("restaurants", .arr [
      .obj [("name", .str "The Local Bistro"), ("cuisine", .str "Local/Fusion"),
            ("rating", .str "4.7/5"), ("price_range", .str "$$")],
      .obj [("name", .str "Seaside Grill"), ("cuisine", .str "Seafood"),
            ("rating", .str "4.5/5"), ("price_range", .str "$$$")]]),
    ("destination", .str destination)]

/-- One populated result field: the dict `\x7bdata, analysis\x7d` a gather
node stores under its own `<domain>_results` key. -/
structure ResultPayload where
  data : JsonVal
  analysis : String

/-- models.py, TravelState: the shared state record. A result field holding
`none` models the empty dict the driver initialises it with (no "analysis"
entry yet); `some payload` models the dict written by the gather node. -/
structure TravelState where
  destination : String
  dates : String
  budget : String
  flight_results : Option ResultPayload
  hotel_results : Option ResultPayload
  events_results : Option ResultPayload
  restaurant_results : Option ResultPayload
  attractions_results : Option ResultPayload
  social_places_results : Option ResultPayload
  final_plan : String
  human_approved : Bool

/-- A partial-state patch as returned by a node: a dict holding a subset of
the TravelState keys. A `none` field is a key absent from the patch. -/
structure StatePatch where
  destination : Option String := none
  dates : Option String := none
  budget : Option String := none
  flight_results : Option ResultPayload := none
  hotel_results : Option ResultPayload := none
  events_results : Option ResultPayload := none
  restaurant_results : Option ResultPayload := none
  attractions_results : Option ResultPayload := none
  social_places_results : Option ResultPayload := none
  final_plan : Option String := none
  human_approved : Option Bool := none

/-- The list of top-level keys present in a patch, in state-field order. -/
def StatePatch.keys (p : StatePatch) : List String :=
  (if p.destination.isSome then ["destination"] else []) ++
  (if p.dates.isSome then ["dates"] else []) ++
  (if p.budget.isSome then ["budget"] else []) ++
  (if p.flight_results.isSome then ["flight_results"] else []) ++
  (if p.hotel_results.isSome then ["hotel_results"] else []) ++
  (if p.events_results.isSome then ["events_results"] else []) ++
  (if p.restaurant_results.isSome then ["restaurant_results"] else []) ++
  (if p.attractions_results.isSome then ["attractions_results"] else []) ++
  (if p.social_places_results.isSome then ["social_places_results"] else []) ++
  (if p.final_plan.isSome then ["final_plan"] else []) ++
  (if p.human_approved.isSome then ["human_approved"] else [])

/-- Per-key shallow union on a result slot: a key present in the patch
overwrites, an absent key leaves the state value untouched. -/
def overwriteField (pv sv : Option ResultPayload) : Option ResultPayload :=
  match pv with
  | some v => some v
  | none => sv

/-- Modelled from the spec: the state-merge policy applied by the LangGraph
runtime behind StateGraph(TravelState) (main.py line 326); the runtime itself
is an external dependency, not in src/. Spec section 4.4: a shallow union —
every key present in the patch overwrites the same key in the shared state,
keys not present in the patch are left untouched. -/
def applyPatch (s : TravelState) (p : StatePatch) : TravelState where
  destination := p.destination.getD s.destination
  dates := p.dates.getD s.dates
  budget := p.budget.getD s.budget
  flight_results := overwriteField p.flight_results s.flight_results
  hotel_results := overwriteField p.hotel_results s.hotel_results
  events_results := overwriteField p.events_results s.events_results
  restaurant_results := overwriteField p.restaurant_results s.restaurant_results
  attractions_results := overwriteField p.attractions_results s.attractions_results
  social_places_results := overwriteField p.social_places_results s.social_places_results
  final_plan := p.final_plan.getD s.final_plan
  human_approved := p.human_approved.getD s.human_approved

/-- Error taxonomy of spec section 7. GenerationError models a failing
text-generation call; MissingDependencyError names the Python KeyError
raised when consolidate_plan indexes a result dict that has no "analysis"
entry (its argument is the missing key); InvalidChoiceError models, in the
finite-input embedding of the interactive collaborator, the situation where
the supplied input stream is exhausted without a valid choice (the real
program keeps re-prompting forever). -/
inductive TravelError where
  | GenerationError : String → TravelError
  | MissingDependencyError : String → TravelError
  | InvalidChoiceError : TravelError
deriving DecidableEq

/-- A variable mapping passed to chain.invoke. -/
abbrev VarMap := List (String × String)

/-- The abstracted text-generation pipeline (prompt | llm | StrOutputParser):
given the template variables, either the generated string or a failure. -/
abbrev GenFun := VarMap → Except TravelError String

/-- The variable mapping flight_agent passes to chain.invoke
(parallel_agents.py lines 48-53). -/
def flightVars (s : TravelState) : VarMap :=
  [("destination", s.destination), ("dates", s.dates), ("budget", s.budget),
   ("results", (mock_flight_search s.destination s.dates s.budget).dumps)]

/-- parallel_agents.py, flight_agent: runs the mock flight search, invokes
the generation chain once, and returns the one-key patch
`\x7bflight_results: \x7bdata, analysis\x7d\x7d`. The returned list records
the variable maps passed to chain.invoke. -/
def flight_agent (gen : GenFun) (s : TravelState) :
    Except TravelError (List VarMap × StatePatch) :=
  let flight_data := mock_flight_search s.destination s.dates s.budget
  match gen (flightVars s) with
  | .error e => .error e
  | .ok flight_analysis =>
    .ok ([flightVars s],
         { flight_results := some ⟨flight_data, flight_analysis⟩ })

/-- The variable mapping hotel_agent passes to chain.invoke
(parallel_agents.py lines 89-94). -/
def hotelVars (s : TravelState) : VarMap :=
  [("destination", s.destination), ("dates", s.dates), ("budget", s.budget),
   ("results", (mock_hotel_search s.destination s.dates s.budget).dumps)]

/-- parallel_agents.py, hotel_agent: mock hotel search, one generation call,
one-key patch under hotel_results. -/
def hotel_agent (gen : GenFun) (s : TravelState) :
    Except TravelError (List VarMap × StatePatch) :=
  let hotel_data := mock_hotel_search s.destination s.dates s.budget
  match gen (hotelVars s) with
  | .error e => .error e
  | .ok hotel_analysis =>
    .ok ([hotelVars s],
         { hotel_results := some ⟨hotel_data, hotel_analysis⟩ })

/-- The variable mapping events_agent passes to chain.invoke
(parallel_agents.py lines 129-133; no budget variable). -/
def eventsVars (s : TravelState) : VarMap :=
  [("destination", s.destination), ("dates", s.dates),
   ("results", (mock_events_search s.destination s.dates).dumps)]

/-- parallel_agents.py, events_agent: mock events search, one generation
call, one-key patch under events_results. -/
def events_agent (gen : GenFun) (s : TravelState) :
    Except TravelError (List VarMap × StatePatch) :=
  let events_data := mock_events_search s.destination s.dates
  match gen (eventsVars s) with
  | .error e => .error e
  | .ok events_analysis =>
    .ok ([eventsVars s],
         { events_results := some ⟨events_data, events_analysis⟩ })

/-- The variable mapping restaurant_agent passes to chain.invoke
(parallel_agents.py lines 168-172; no dates variable). -/
def restaurantVars (s : TravelState) : VarMap :=
  [("destination", s.destination), ("budget", s.budget),
   ("results", (mock_restaurant_search s.destination).dumps)]

/-- parallel_agents.py, restaurant_agent: mock restaurant search (destination
only), one generation call, one-key patch under restaurant_results. -/
def restaurant_agent (gen : GenFun) (s : TravelState) :
    Except TravelError (List VarMap × StatePatch) :=
  let restaurant_data := mock_restaurant_search s.destination
  match gen (restaurantVars s) with
  | .error e => .error e
  | .ok restaurant_analysis =>
    .ok ([restaurantVars s],
         { restaurant_results := some ⟨restaurant_data, restaurant_analysis⟩ })

/-- The variable mapping attractions_agent passes to chain.invoke
(parallel_agents.py lines 219-223; no search provider, no results variable). -/
def attractionsVars (s : TravelState) : VarMap :=
  [("destination", s.destination), ("dates", s.dates), ("budget", s.budget)]

/-- parallel_agents.py, attractions_agent: LLM-native node — one generation
call, sentinel data `\x7bllm_generated: true\x7d`, one-key patch under
attractions_results. -/
def attractions_agent (gen : GenFun) (s : TravelState) :
    Except TravelError (List VarMap × StatePatch) :=
  match gen (attractionsVars s) with
  | .error e => .error e
  | .ok attractions_analysis =>
    .ok ([attractionsVars s],
         { attractions_results :=
             some ⟨.obj [("llm_generated", .bool true)], attractions_analysis⟩ })

/-- The variable mapping social_places_agent passes to chain.invoke
(parallel_agents.py lines 276-280). -/
def socialPlacesVars (s : TravelState) : VarMap :=
  [("destination", s.destination), ("dates", s.dates), ("budget", s.budget)]

/-- parallel_agents.py, social_places_agent: LLM-native node — one generation
call, sentinel data, one-key patch under social_places_results. -/
def social_places_agent (gen : GenFun) (s : TravelState) :
    Except TravelError (List VarMap × StatePatch) :=
  match gen (socialPlacesVars s) with
  | .error e => .error e
  | .ok social_places_analysis =>
    .ok ([socialPlacesVars s],
         { social_places_results :=
             some ⟨.obj [("llm_generated", .bool true)], social_places_analysis⟩ })

/-- Indexing a result dict with ["analysis"]: on the driver's initial empty
dict (`none`) this is the Python KeyError("analysis"), which the spec's
error taxonomy names MissingDependencyError. -/
def getAnalysis : Option ResultPayload → Except TravelError String
  | some p => .ok p.analysis
  | none => .error (.MissingDependencyError "analysis")

/-- parallel_agents.py, consolidate_plan: reads the analysis string of each
of the six result fields (in source order), invokes the generation chain
exactly once with the nine-variable mapping, and returns the one-key patch
`\x7bfinal_plan: ...\x7d`. -/
def consolidate_plan (gen : GenFun) (s : TravelState) :
    Except TravelError (List VarMap × StatePatch) :=
  match getAnalysis s.flight_results with
  | .error e => .error e
  | .ok flights =>
    match getAnalysis s.hotel_results with
    | .error e => .error e
    | .ok hotels =>
      match getAnalysis s.events_results with
      | .error e => .error e
      | .ok events =>
        match getAnalysis s.restaurant_results with
        | .error e => .error e
        | .ok restaurants =>
          match getAnalysis s.attractions_results with
          | .error e => .error e
          | .ok attractions =>
            match getAnalysis s.social_places_results with
            | .error e => .error e
            | .ok social_places =>
              let vars : VarMap :=
                [("destination", s.destination), ("dates", s.dates),
                 ("budget", s.budget), ("flights", flights), ("hotels", hotels),
                 ("events", events), ("restaurants", restaurants),
                 ("attractions", attractions), ("social_places", social_places)]
              match gen vars with
              | .error e => .error e
              | .ok final_plan => .ok ([vars], { final_plan := some final_plan })

/-- The variable mapping the modification branch of human_approval_agent
passes to chain.invoke (main.py lines 289-292). -/
def modifyVars (s : TravelState) (feedback : String) : VarMap :=
  [("original_plan", s.final_plan), ("feedback", feedback)]

/-- main.py, human_approval_agent. The interactive collaborator is modelled
by a finite stream of decision inputs (answers to the approval prompt), a
feedback string and a confirm boolean (spec section 6: ask_choice /
ask_free_text / confirm). Prompt.ask is called with
choices=["yes","no","modify"] and default="yes": an empty input yields the
default and a value outside the choices makes the collaborator re-prompt,
consuming the next input; the node's own while-True loop likewise re-asks.
The source's .lower().strip() is the identity on the three lowercase
choice words the prompt can return, so the model applies the default and
passes the value through. An exhausted input stream — the real program
would still be waiting for input — is reported as InvalidChoiceError. -/
def human_approval_agent (gen : GenFun) (feedback : String) (confirm : Bool)
    (s : TravelState) : List String → Except TravelError (List VarMap × StatePatch)
  | [] => .error .InvalidChoiceError
  | d :: rest =>
    if d ≠ "" ∧ d ∉ ["yes", "no", "modify"] then
      human_approval_agent gen feedback confirm s rest
    else
      let approval := if d = "" then "yes" else d
      if approval = "yes" ∨ approval = "y" then
        .ok ([], { human_approved := some true })
      else if approval = "no" ∨ approval = "n" then
        .ok ([], { human_approved := some false })
      else if approval = "modify" ∨ approval = "m" then
        match gen (modifyVars s feedback) with
        | .error e => .error e
        | .ok revised_plan =>
          if confirm then
            .ok ([modifyVars s feedback],
                 { final_plan := some revised_plan, human_approved := some true })
          else
            .ok ([modifyVars s feedback],
                 { final_plan := some revised_plan, human_approved := some false })
      else
        human_approval_agent gen feedback confirm s rest

/-- A task node: shared state in, generation-call log and patch out. -/
abbrev NodeFun := TravelState → Except TravelError (List VarMap × StatePatch)

/-- A directed task graph: named nodes, entry points, edges (an edge to the
terminal marker "END" has no registered target node). -/
structure GraphSpec where
  nodes : List (String × NodeFun)
  entries : List String
  edges : List (String × String)

/-- The registered node names, in registration order. -/
def GraphSpec.names (g : GraphSpec) : List String := g.nodes.map Prod.fst

/-- The predecessors of a node, read off the edge set. -/
def GraphSpec.preds (g : GraphSpec) (n : String) : List String :=
  (g.edges.filter (fun e => e.2 == n)).map Prod.fst

/-- Looks a node function up by name. -/
def GraphSpec.find (g : GraphSpec) (n : String) : Option NodeFun :=
  (g.nodes.find? (fun kv => kv.1 == n)).map Prod.snd

/-- Modelled from the spec: the scheduler's eligibility rule (section 4.5) —
a non-entry node becomes eligible once all of its predecessors have
completed and merged. The LangGraph runtime implementing this is an
external dependency, not in src/. -/
def GraphSpec.ready (g : GraphSpec) (done : List String) : List String :=
  g.names.filter (fun n =>
    !(done.contains n) && !(g.preds n).isEmpty &&
      (g.preds n).all (fun p => done.contains p))

/-- Modelled from the spec: successive supersteps after the entry round;
each superstep runs every node that has just become eligible. Fuel bounds
the iteration by the node count. -/
def GraphSpec.scheduleAux (g : GraphSpec) : Nat → List String → List (List String)
  | 0, _ => []
  | fuel + 1, done =>
    let r := g.ready done
    if r.isEmpty then [] else r :: g.scheduleAux fuel (done ++ r)

/-- Modelled from the spec (section 4.5): the execution schedule — run all
entry nodes first, then repeatedly every newly eligible node; a node with
multiple predecessors runs once, after the last predecessor's round
(barrier semantics). -/
def GraphSpec.schedule (g : GraphSpec) : List (List String) :=
  g.entries :: g.scheduleAux g.nodes.length g.entries

/-- The flat invocation order induced by the schedule. -/
def GraphSpec.trace (g : GraphSpec) : List String := g.schedule.flatten

/-- Runs every node of one superstep on the same pre-round state, collecting
their patches; the first failure aborts the round (spec section 5: a
failure must short-circuit the pipeline, no patch of a failed round is
merged). -/
def runNodes (g : GraphSpec) (s : TravelState) :
    List String → Except TravelError (List StatePatch)
  | [] => .ok []
  | n :: rest =>
    match g.find n with
    | none => .error (.MissingDependencyError n)
    | some f =>
      match f s with
      | .error e => .error e
      | .ok r =>
        match runNodes g s rest with
        | .error e => .error e
        | .ok ps => .ok (r.2 :: ps)

/-- Modelled from the spec: executes the supersteps in order, merging each
round's patches into the shared state before the next round starts; returns
the names of the invoked nodes and either the final state or the first
failure, which aborts all later rounds. -/
def execRounds (g : GraphSpec) :
    List (List String) → TravelState → List String × Except TravelError TravelState
  | [], s => ([], .ok s)
  | r :: rs, s =>
    match runNodes g s r with
    | .error e => (r, .error e)
    | .ok ps =>
      let next := execRounds g rs (ps.foldl applyPatch s)
      (r ++ next.1, next.2)

/-- Modelled from the spec: execute(initial_state) — the whole schedule from
the initial state. -/
def GraphSpec.execute (g : GraphSpec) (s : TravelState) :
    List String × Except TravelError TravelState :=
  execRounds g g.schedule s

/-- main.py, create_parallelization_workflow: the eight registered nodes,
the six parallel entry points, and the edge set (six gather edges into
consolidate, consolidate to human_approval, human_approval to END). The
node functions carry the abstracted generation function and the interactive
collaborator's inputs. -/
def create_parallelization_workflow (gen : GenFun) (decisions : List String)
    (feedback : String) (confirm : Bool) : GraphSpec where
  nodes :=
    [("flight_search", flight_agent gen),
     ("hotel_search", hotel_agent gen),
     ("events_search", events_agent gen),
     ("restaurant_search", restaurant_agent gen),
     ("attractions_search", attractions_agent gen),
     ("social_places_search", social_places_agent gen),
     ("consolidate", consolidate_plan gen),
     ("human_approval", fun s => human_approval_agent gen feedback confirm s decisions)]
  entries :=
    ["flight_search", "hotel_search", "events_search", "restaurant_search",
     "attractions_search", "social_places_search"]
  edges :=
    [("flight_search", "consolidate"), ("hotel_search", "consolidate"),
     ("events_search", "consolidate"), ("restaurant_search", "consolidate"),
     ("attractions_search", "consolidate"), ("social_places_search", "consolidate"),
     ("consolidate", "human_approval"), ("human_approval", "END")]

/-- The sample travel request used by the spec's testable properties
(section 8) with the driver's initial empty result fields (main.py,
travel_request). -/
def sampleState : TravelState where
  destination := "Barcelona"
  dates := "March 15-20, 2024"
  budget := "$2000"
  flight_results := none
  hotel_results := none
  events_results := none
  restaurant_results := none
  attractions_results := none
  social_places_results := none
  final_plan := ""
  human_approved := false

/-- A generation stub that echoes a fixed non-empty string (section 8's
"generation stub that echoes a fixed string"). -/
def stubGen : GenFun := fun _ => .ok "Test analysis"

/-- A sample patch as emitted by the human-approval node's confirmed
modification branch. -/
def samplePatch : StatePatch :=
  { final_plan := some "Plan A", human_approved := some true }

/-- A sample state in which all six gather nodes have merged their results. -/
def populatedState : TravelState :=
  { sampleState with
    flight_results := some ⟨.obj [], "Flight analysis"⟩
    hotel_results := some ⟨.obj [], "Hotel analysis"⟩
    events_results := some ⟨.obj [], "Events analysis"⟩
    restaurant_results := some ⟨.obj [], "Restaurant analysis"⟩
    attractions_results := some ⟨.obj [], "Attractions analysis"⟩
    social_places_results := some ⟨.obj [], "Social analysis"⟩
    final_plan := "Initial plan" }

/-! Helper lemmas about the agents and the merge. -/

theorem opt_getD_getD {α : Type} (o : Option α) (x : α) :
    o.getD (o.getD x) = o.getD x := by cases o <;> rfl

theorem overwriteField_idem (o x : Option ResultPayload) :
    overwriteField o (overwriteField o x) = overwriteField o x := by
  cases o <;> rfl

theorem flight_agent_ok (gen : GenFun) (s : TravelState) (r) :
    flight_agent gen s = .ok r ↔
      ∃ a, gen (flightVars s) = .ok a ∧
        r = ([flightVars s],
             { flight_results :=
                 some ⟨mock_flight_search s.destination s.dates s.budget, a⟩ }) := by
  cases h : gen (flightVars s) <;> simp [flight_agent, h] <;> exact eq_comm

theorem flight_agent_error (gen : GenFun) (s : TravelState) (e) :
    flight_agent gen s = .error e ↔ gen (flightVars s) = .error e := by
  cases h : gen (flightVars s) <;> simp [flight_agent, h]

theorem hotel_agent_ok (gen : GenFun) (s : TravelState) (r) :
    hotel_agent gen s = .ok r ↔
      ∃ a, gen (hotelVars s) = .ok a ∧
        r = ([hotelVars s],
             { hotel_results :=
                 some ⟨mock_hotel_search s.destination s.dates s.budget, a⟩ }) := by
  cases h : gen (hotelVars s) <;> simp [hotel_agent, h] <;> exact eq_comm

theorem hotel_agent_error (gen : GenFun) (s : TravelState) (e) :
    hotel_agent gen s = .error e ↔ gen (hotelVars s) = .error e := by
  cases h : gen (hotelVars s) <;> simp [hotel_agent, h]

theorem events_agent_ok (gen : GenFun) (s : TravelState) (r) :
    events_agent gen s = .ok r ↔
      ∃ a, gen (eventsVars s) = .ok a ∧
        r = ([eventsVars s],
             { events_results :=
                 some ⟨mock_events_search s.destination s.dates, a⟩ }) := by
  cases h : gen (eventsVars s) <;> simp [events_agent, h] <;> exact eq_comm

theorem events_agent_error (gen : GenFun) (s : TravelState) (e) :
    events_agent gen s = .error e ↔ gen (eventsVars s) = .error e := by
  cases h : gen (eventsVars s) <;> simp [events_agent, h]

theorem restaurant_agent_ok (gen : GenFun) (s : TravelState) (r) :
    restaurant_agent gen s = .ok r ↔
      ∃ a, gen (restaurantVars s) = .ok a ∧
        r = ([restaurantVars s],
             { restaurant_results :=
                 some ⟨mock_restaurant_search s.destination, a⟩ }) := by
  cases h : gen (restaurantVars s) <;> simp [restaurant_agent, h] <;> exact eq_comm

theorem restaurant_agent_error (gen : GenFun) (s : TravelState) (e) :
    restaurant_agent gen s = .error e ↔ gen (restaurantVars s) = .error e := by
  cases h : gen (restaurantVars s) <;> simp [restaurant_agent, h]

theorem attractions_agent_ok (gen : GenFun) (s : TravelState) (r) :
    attractions_agent gen s = .ok r ↔
      ∃ a, gen (attractionsVars s) = .ok a ∧
        r = ([attractionsVars s],
             { attractions_results :=
                 some ⟨.obj [("llm_generated", .bool true)], a⟩ }) := by
  cases h : gen (attractionsVars s) <;> simp [attractions_agent, h] <;> exact eq_comm

theorem attractions_agent_error (gen : GenFun) (s : TravelState) (e) :
    attractions_agent gen s = .error e ↔ gen (attractionsVars s) = .error e := by
  cases h : gen (attractionsVars s) <;> simp [attractions_agent, h]

theorem social_places_agent_ok (gen : GenFun) (s : TravelState) (r) :
    social_places_agent gen s = .ok r ↔
      ∃ a, gen (socialPlacesVars s) = .ok a ∧
        r = ([socialPlacesVars s],
             { social_places_results :=
                 some ⟨.obj [("llm_generated", .bool true)], a⟩ }) := by
  cases h : gen (socialPlacesVars s) <;> simp [social_places_agent, h] <;> exact eq_comm

theorem social_places_agent_error (gen : GenFun) (s : TravelState) (e) :
    social_places_agent gen s = .error e ↔ gen (socialPlacesVars s) = .error e := by
  cases h : gen (socialPlacesVars s) <;> simp [social_places_agent, h]

/-- C1: for every state with string destination, dates and budget, each of
the six gather agents — when its text-generation call succeeds with a
non-empty string — returns a patch whose only top-level key is its own
domain's results field, with the data entry present and the analysis entry
that non-empty string. -/
theorem gather_agents_single_key_patch :
    (∀ (gen : GenFun) (s : TravelState) (a : String),
      gen (flightVars s) = .ok a → a ≠ "" →
      ∃ p : StatePatch, flight_agent gen s = .ok ([flightVars s], p) ∧
        p.keys = ["flight_results"] ∧
        ∃ pl, p.flight_results = some pl ∧
          pl.data = mock_flight_search s.destination s.dates s.budget ∧
          pl.analysis = a ∧ pl.analysis ≠ "")
    ∧ (∀ (gen : GenFun) (s : TravelState) (a : String),
      gen (hotelVars s) = .ok a → a ≠ "" →
      ∃ p : StatePatch, hotel_agent gen s = .ok ([hotelVars s], p) ∧
        p.keys = ["hotel_results"] ∧
        ∃ pl, p.hotel_results = some pl ∧
          pl.data = mock_hotel_search s.destination s.dates s.budget ∧
          pl.analysis = a ∧ pl.analysis ≠ "")
    ∧ (∀ (gen : GenFun) (s : TravelState) (a : String),
      gen (eventsVars s) = .ok a → a ≠ "" →
      ∃ p : StatePatch, events_agent gen s = .ok ([eventsVars s], p) ∧
        p.keys = ["events_results"] ∧
        ∃ pl, p.events_results = some pl ∧
          pl.data = mock_events_search s.destination s.dates ∧
          pl.analysis = a ∧ pl.analysis ≠ "")
    ∧ (∀ (gen : GenFun) (s : TravelState) (a : String),
      gen (restaurantVars s) = .ok a → a ≠ "" →
      ∃ p : StatePatch, restaurant_agent gen s = .ok ([restaurantVars s], p) ∧
        p.keys = ["restaurant_results"] ∧
        ∃ pl, p.restaurant_results = some pl ∧
          pl.data = mock_restaurant_search s.destination ∧
          pl.analysis = a ∧ pl.analysis ≠ "")
    ∧ (∀ (gen : GenFun) (s : TravelState) (a : String),
      gen (attractionsVars s) = .ok a → a ≠ "" →
      ∃ p : StatePatch, attractions_agent gen s = .ok ([attractionsVars s], p) ∧
        p.keys = ["attractions_results"] ∧
        ∃ pl, p.attractions_results = some pl ∧
          pl.data = .obj [("llm_generated", .bool true)] ∧
          pl.analysis = a ∧ pl.analysis ≠ "")
    ∧ (∀ (gen : GenFun) (s : TravelState) (a : String),
      gen (socialPlacesVars s) = .ok a → a ≠ "" →
      ∃ p : StatePatch, social_places_agent gen s = .ok ([socialPlacesVars s], p) ∧
        p.keys = ["social_places_results"] ∧
        ∃ pl, p.social_places_results = some pl ∧
          pl.data = .obj [("llm_generated", .bool true)] ∧
          pl.analysis = a ∧ pl.analysis ≠ "") := by
  refine ⟨?_, ?_, ?_, ?_, ?_, ?_⟩ <;> intro gen s a h ha
  · exact ⟨{ flight_results := some ⟨mock_flight_search s.destination s.dates s.budget, a⟩ },
      by simp [flight_agent, h], rfl, ⟨_, a⟩, rfl, rfl, rfl, ha⟩
  · exact ⟨{ hotel_results := some ⟨mock_hotel_search s.destination s.dates s.budget, a⟩ },
      by simp [hotel_agent, h], rfl, ⟨_, a⟩, rfl, rfl, rfl, ha⟩
  · exact ⟨{ events_results := some ⟨mock_events_search s.destination s.dates, a⟩ },
      by simp [events_agent, h], rfl, ⟨_, a⟩, rfl, rfl, rfl, ha⟩
  · exact ⟨{ restaurant_results := some ⟨mock_restaurant_search s.destination, a⟩ },
      by simp [restaurant_agent, h], rfl, ⟨_, a⟩, rfl, rfl, rfl, ha⟩
  · exact ⟨{ attractions_results := some ⟨.obj [("llm_generated", .bool true)], a⟩ },
      by simp [attractions_agent, h], rfl, ⟨_, a⟩, rfl, rfl, rfl, ha⟩
  · exact ⟨{ social_places_results := some ⟨.obj [("llm_generated", .bool true)], a⟩ },
      by simp [social_places_agent, h], rfl, ⟨_, a⟩, rfl, rfl, rfl, ha⟩

/-- Witness for C1: the flight conjunct at the sample Barcelona request with
the echo stub. -/
theorem gather_agents_single_key_patch_witness :
    ∃ p : StatePatch,
      flight_agent stubGen sampleState = .ok ([flightVars sampleState], p) ∧
      p.keys = ["flight_results"] ∧
      ∃ pl, p.flight_results = some pl ∧
        pl.data = mock_flight_search sampleState.destination sampleState.dates
          sampleState.budget ∧
        pl.analysis = "Test analysis" ∧ pl.analysis ≠ "" :=
  gather_agents_single_key_patch.1 stubGen sampleState "Test analysis" rfl
    (by decide)

/-- C2: on a state whose six result fields are all populated,
consolidate_plan makes exactly one text-generation call, whose variable
mapping has exactly the nine keys destination, dates, budget, flights,
hotels, events, restaurants, attractions, social_places — the six domain
values being the analysis strings of the result fields — and returns a
patch whose only key is final_plan, with a non-empty value when the
generated plan is non-empty. -/
theorem consolidate_plan_invokes_once_nine_keys (gen : GenFun) (s : TravelState)
    (fp hp ep rp ap sp : ResultPayload) (plan : String)
    (hf : s.flight_results = some fp) (hh : s.hotel_results = some hp)
    (he : s.events_results = some ep) (hr : s.restaurant_results = some rp)
    (ha : s.attractions_results = some ap) (hsp : s.social_places_results = some sp)
    (hgen : gen [("destination", s.destination), ("dates", s.dates),
                 ("budget", s.budget), ("flights", fp.analysis),
                 ("hotels", hp.analysis), ("events", ep.analysis),
                 ("restaurants", rp.analysis), ("attractions", ap.analysis),
                 ("social_places", sp.analysis)] = .ok plan)
    (hplan : plan ≠ "") :
    consolidate_plan gen s =
      .ok ([[("destination", s.destination), ("dates", s.dates),
             ("budget", s.budget), ("flights", fp.analysis),
             ("hotels", hp.analysis), ("events", ep.analysis),
             ("restaurants", rp.analysis), ("attractions", ap.analysis),
             ("social_places", sp.analysis)]],
           { final_plan := some plan })
    ∧ ([("destination", s.destination), ("dates", s.dates),
        ("budget", s.budget), ("flights", fp.analysis),
        ("hotels", hp.analysis), ("events", ep.analysis),
        ("restaurants", rp.analysis), ("attractions", ap.analysis),
        ("social_places", sp.analysis)] : VarMap).map Prod.fst =
        ["destination", "dates", "budget", "flights", "hotels", "events",
         "restaurants", "attractions", "social_places"]
    ∧ ({ final_plan := some plan } : StatePatch).keys = ["final_plan"]
    ∧ plan ≠ "" := by
  refine ⟨?_, rfl, rfl, hplan⟩
  simp [consolidate_plan, getAnalysis, hf, hh, he, hr, ha, hsp, hgen]

/-- Witness for C2: the populated sample state with the echo stub. -/
theorem consolidate_plan_invokes_once_nine_keys_witness :
    consolidate_plan stubGen populatedState =
      .ok ([[("destination", populatedState.destination),
             ("dates", populatedState.dates), ("budget", populatedState.budget),
             ("flights", "Flight analysis"), ("hotels", "Hotel analysis"),
             ("events", "Events analysis"), ("restaurants", "Restaurant analysis"),
             ("attractions", "Attractions analysis"),
             ("social_places", "Social analysis")]],
           { final_plan := some "Test analysis" })
    ∧ ([("destination", populatedState.destination),
        ("dates", populatedState.dates), ("budget", populatedState.budget),
        ("flights", "Flight analysis"), ("hotels", "Hotel analysis"),
        ("events", "Events analysis"), ("restaurants", "Restaurant analysis"),
        ("attractions", "Attractions analysis"),
        ("social_places", "Social analysis")] : VarMap).map Prod.fst =
        ["destination", "dates", "budget", "flights", "hotels", "events",
         "restaurants", "attractions", "social_places"]
    ∧ ({ final_plan := some "Test analysis" } : StatePatch).keys = ["final_plan"]
    ∧ "Test analysis" ≠ "" :=
  consolidate_plan_invokes_once_nine_keys stubGen populatedState
    ⟨.obj [], "Flight analysis"⟩ ⟨.obj [], "Hotel analysis"⟩
    ⟨.obj [], "Events analysis"⟩ ⟨.obj [], "Restaurant analysis"⟩
    ⟨.obj [], "Attractions analysis"⟩ ⟨.obj [], "Social analysis"⟩
    "Test analysis" rfl rfl rfl rfl rfl rfl rfl (by decide)

/-- C5: consolidate_plan, invoked on a state in which some result field has
no analysis entry yet (its dict is still the driver's initial empty dict),
fails with MissingDependencyError — the KeyError("analysis") of the
source, named by the spec's error taxonomy. -/
theorem consolidate_plan_missing_analysis_error (gen : GenFun) (s : TravelState)
    (h : s.flight_results = none ∨ s.hotel_results = none ∨
         s.events_results = none ∨ s.restaurant_results = none ∨
         s.attractions_results = none ∨ s.social_places_results = none) :
    consolidate_plan gen s = .error (.MissingDependencyError "analysis") := by
  cases hf : s.flight_results <;> cases hh : s.hotel_results <;>
    cases he : s.events_results <;> cases hr : s.restaurant_results <;>
    cases ha : s.attractions_results <;> cases hsp : s.social_places_results <;>
    simp_all [consolidate_plan, getAnalysis]

/-- Witness for C5: the driver's freshly initialised sample state. -/
theorem consolidate_plan_missing_analysis_error_witness :
    consolidate_plan stubGen sampleState =
      .error (.MissingDependencyError "analysis") :=
  consolidate_plan_missing_analysis_error stubGen sampleState (.inl rfl)

/-- C8: the state merge is a shallow union — a key present in the patch
overwrites the state's value, a key absent from the patch leaves it
untouched — and it is idempotent: merging the same patch twice equals
merging it once. -/
theorem merge_shallow_union_idempotent (s : TravelState) (p : StatePatch) :
    applyPatch (applyPatch s p) p = applyPatch s p
    ∧ (p.destination = none → (applyPatch s p).destination = s.destination)
    ∧ (∀ v, p.destination = some v → (applyPatch s p).destination = v)
    ∧ (p.dates = none → (applyPatch s p).dates = s.dates)
    ∧ (∀ v, p.dates = some v → (applyPatch s p).dates = v)
    ∧ (p.budget = none → (applyPatch s p).budget = s.budget)
    ∧ (∀ v, p.budget = some v → (applyPatch s p).budget = v)
    ∧ (p.flight_results = none →
        (applyPatch s p).flight_results = s.flight_results)
    ∧ (∀ v, p.flight_results = some v → (applyPatch s p).flight_results = some v)
    ∧ (p.hotel_results = none → (applyPatch s p).hotel_results = s.hotel_results)
    ∧ (∀ v, p.hotel_results = some v → (applyPatch s p).hotel_results = some v)
    ∧ (p.events_results = none →
        (applyPatch s p).events_results = s.events_results)
    ∧ (∀ v, p.events_results = some v → (applyPatch s p).events_results = some v)
    ∧ (p.restaurant_results = none →
        (applyPatch s p).restaurant_results = s.restaurant_results)
    ∧ (∀ v, p.restaurant_results = some v →
        (applyPatch s p).restaurant_results = some v)
    ∧ (p.attractions_results = none →
        (applyPatch s p).attractions_results = s.attractions_results)
    ∧ (∀ v, p.attractions_results = some v →
        (applyPatch s p).attractions_results = some v)
    ∧ (p.social_places_results = none →
        (applyPatch s p).social_places_results = s.social_places_results)
    ∧ (∀ v, p.social_places_results = some v →
        (applyPatch s p).social_places_results = some v)
    ∧ (p.final_plan = none → (applyPatch s p).final_plan = s.final_plan)
    ∧ (∀ v, p.final_plan = some v → (applyPatch s p).final_plan = v)
    ∧ (p.human_approved = none →
        (applyPatch s p).human_approved = s.human_approved)
    ∧ (∀ v, p.human_approved = some v → (applyPatch s p).human_approved = v) := by
  refine ⟨by simp [applyPatch, opt_getD_getD, overwriteField_idem],
    ?_, ?_, ?_, ?_, ?_, ?_, ?_, ?_, ?_, ?_, ?_, ?_, ?_, ?_, ?_, ?_, ?_, ?_,
    ?_, ?_, ?_, ?_⟩ <;>
  first
    | (intro h; simp [applyPatch, overwriteField, h])
    | (intro v h; simp [applyPatch, overwriteField, h])

/-- Witness for C8: idempotence at the sample state and patch, an untouched
key (destination absent from the patch) and an overwritten key. -/
theorem merge_shallow_union_idempotent_witness :
    applyPatch (applyPatch sampleState samplePatch) samplePatch =
      applyPatch sampleState samplePatch
    ∧ (applyPatch sampleState samplePatch).destination = sampleState.destination
    ∧ (applyPatch sampleState { destination := some "Rome" }).destination =
        "Rome" :=
  ⟨(merge_shallow_union_idempotent sampleState samplePatch).1,
   (merge_shallow_union_idempotent sampleState samplePatch).2.1 rfl,
   (merge_shallow_union_idempotent sampleState
       { destination := some "Rome" }).2.2.1 "Rome" rfl⟩

/-- Unfolding of the human-approval node at a "modify" decision: the
collected feedback and the current final plan go to one generation call,
then the confirm answer picks the approved flag; the revised plan is kept
either way. -/
theorem human_approval_modify (gen : GenFun) (fb : String) (c : Bool)
    (s : TravelState) (rest : List String) :
    human_approval_agent gen fb c s ("modify" :: rest) =
      match gen (modifyVars s fb) with
      | .error e => .error e
      | .ok revised_plan =>
        if c then
          .ok ([modifyVars s fb],
               { final_plan := some revised_plan, human_approved := some true })
        else
          .ok ([modifyVars s fb],
               { final_plan := some revised_plan, human_approved := some false }) :=
  rfl

/-- Never returned with a valid decision in the stream: skipping one invalid
decision leaves the node's behaviour unchanged. -/
theorem human_approval_skips_invalid (gen : GenFun) (fb : String) (c : Bool)
    (s : TravelState) (d : String) (ds : List String)
    (h1 : d ≠ "") (h2 : d ∉ ["yes", "no", "modify"]) :
    human_approval_agent gen fb c s (d :: ds) =
      human_approval_agent gen fb c s ds := by
  simp only [human_approval_agent]
  rw [if_pos ⟨h1, h2⟩]

/-- Every successful run of the human-approval node returns one of its four
terminal patches; in the modification case, exactly one generation call was
made, on the original plan and the feedback. -/
theorem human_approval_ok_cases (gen : GenFun) (fb : String) (c : Bool)
    (s : TravelState) :
    ∀ (ds : List String) (r : List VarMap × StatePatch),
      human_approval_agent gen fb c s ds = .ok r →
      r = ([], { human_approved := some true }) ∨
      r = ([], { human_approved := some false }) ∨
      ∃ rp, gen (modifyVars s fb) = .ok rp ∧
        (r = ([modifyVars s fb],
              { final_plan := some rp, human_approved := some true }) ∨
         r = ([modifyVars s fb],
              { final_plan := some rp, human_approved := some false })) := by
  intro ds
  induction ds with
  | nil => intro r h; exact absurd h (by simp [human_approval_agent])
  | cons d tl ih =>
    intro r h
    by_cases hd : d ≠ "" ∧ d ∉ ["yes", "no", "modify"]
    · rw [human_approval_skips_invalid gen fb c s d tl hd.1 hd.2] at h
      exact ih r h
    · have hd' : d = "" ∨ d = "yes" ∨ d = "no" ∨ d = "modify" := by
        rcases not_and_or.mp hd with h1 | h2
        · exact .inl (not_not.mp h1)
        · exact .inr (by simpa using not_not.mp h2)
      rcases hd' with hde | hde | hde | hde <;> subst hde
      · rw [show human_approval_agent gen fb c s ("" :: tl) =
            .ok ([], { human_approved := some true }) from rfl] at h
        injection h with h2
        exact .inl h2.symm
      · rw [show human_approval_agent gen fb c s ("yes" :: tl) =
            .ok ([], { human_approved := some true }) from rfl] at h
        injection h with h2
        exact .inl h2.symm
      · rw [show human_approval_agent gen fb c s ("no" :: tl) =
            .ok ([], { human_approved := some false }) from rfl] at h
        injection h with h2
        exact .inr (.inl h2.symm)
      · rw [human_approval_modify] at h
        cases hg : gen (modifyVars s fb) with
        | error e => rw [hg] at h; exact absurd h (by simp)
        | ok rp =>
          rw [hg] at h
          cases c
          · simp only [reduceIte] at h
            injection h with h2
            exact .inr (.inr ⟨rp, rfl, .inr h2.symm⟩)
          · simp only [reduceIte] at h
            injection h with h2
            exact .inr (.inr ⟨rp, rfl, .inl h2.symm⟩)

/-- A stream with no valid decision never produces a result: the node is
still waiting for input when the stream runs out. -/
theorem human_approval_all_invalid (gen : GenFun) (fb : String) (c : Bool)
    (s : TravelState) :
    ∀ ds : List String, (∀ d ∈ ds, d ≠ "" ∧ d ∉ ["yes", "no", "modify"]) →
      human_approval_agent gen fb c s ds = .error .InvalidChoiceError := by
  intro ds
  induction ds with
  | nil => intro _; rfl
  | cons d tl ih =>
    intro h
    rw [human_approval_skips_invalid gen fb c s d tl (h d (by simp)).1
          (h d (by simp)).2]
    exact ih fun x hx => h x (by simp [hx])

/-- C4: on a state carrying a final plan, the human-approval node is the
specified state machine — "yes" yields human_approved true, "no" yields
human_approved false, and "modify" collects feedback, generates a revised
plan from the original plan and the feedback in exactly one generation
call, then the binary confirmation keeps the revised plan with
human_approved true when confirmed and false when declined. -/
theorem human_approval_state_machine (gen : GenFun) (s : TravelState)
    (fb : String) (rest : List String) (rp : String)
    (hplan : s.final_plan ≠ "") :
    (∀ c, human_approval_agent gen fb c s ("yes" :: rest) =
      .ok ([], { human_approved := some true }))
    ∧ (∀ c, human_approval_agent gen fb c s ("no" :: rest) =
      .ok ([], { human_approved := some false }))
    ∧ (gen (modifyVars s fb) = .ok rp →
        human_approval_agent gen fb true s ("modify" :: rest) =
          .ok ([modifyVars s fb],
               { final_plan := some rp, human_approved := some true })
        ∧ human_approval_agent gen fb false s ("modify" :: rest) =
          .ok ([modifyVars s fb],
               { final_plan := some rp, human_approved := some false })) := by
  refine ⟨fun c => rfl, fun c => rfl, fun hg => ⟨?_, ?_⟩⟩ <;>
    (rw [human_approval_modify, hg]; rfl)

/-- Witness for C4: each branch at a concrete reviewed plan, with the echo
stub generating the revision. -/
theorem human_approval_state_machine_witness :
    human_approval_agent stubGen "add more restaurants" true
        { sampleState with final_plan := "Initial plan" } ["yes"] =
      .ok ([], { human_approved := some true })
    ∧ human_approval_agent stubGen "add more restaurants" true
        { sampleState with final_plan := "Initial plan" } ["no"] =
      .ok ([], { human_approved := some false })
    ∧ human_approval_agent stubGen "add more restaurants" true
        { sampleState with final_plan := "Initial plan" } ["modify"] =
      .ok ([modifyVars { sampleState with final_plan := "Initial plan" }
              "add more restaurants"],
           { final_plan := some "Test analysis", human_approved := some true }) :=
  ⟨(human_approval_state_machine stubGen
      { sampleState with final_plan := "Initial plan" } "add more restaurants"
      [] "Test analysis" (by decide)).1 true,
   (human_approval_state_machine stubGen
      { sampleState with final_plan := "Initial plan" } "add more restaurants"
      [] "Test analysis" (by decide)).2.1 true,
   ((human_approval_state_machine stubGen
      { sampleState with final_plan := "Initial plan" } "add more restaurants"
      [] "Test analysis" (by decide)).2.2 rfl).1⟩

/-- Counterexample for C7 as stated: the short form "y" is not an accepted
decision value — the prompt is restricted to the three full words, so a
lone "y" is re-prompted (consuming the input) and the node is left waiting
instead of returning an approval. -/
theorem short_form_decision_not_accepted :
    human_approval_agent stubGen "" true
        { sampleState with final_plan := "Plan" } ["y"] =
      .error .InvalidChoiceError :=
  rfl

/-- C7 (amended): for every decision-input stream the node never fails on a
value outside the accepted set {yes, no, modify} (empty input defaults to
yes): such values are skipped and re-prompted, a stream with no valid value
leaves the node waiting (InvalidChoiceError in the finite-input embedding)
and a result is returned only upon processing a valid decision. -/
theorem human_approval_reprompts_until_valid (gen : GenFun) (fb : String)
    (c : Bool) (s : TravelState) (ds : List String) :
    (∀ d, d ≠ "" → d ∉ ["yes", "no", "modify"] →
      human_approval_agent gen fb c s (d :: ds) =
        human_approval_agent gen fb c s ds)
    ∧ ((∀ d ∈ ds, d ≠ "" ∧ d ∉ ["yes", "no", "modify"]) →
      human_approval_agent gen fb c s ds = .error .InvalidChoiceError)
    ∧ (human_approval_agent gen fb c s ds ≠ .error .InvalidChoiceError →
      ∃ d ∈ ds, d = "" ∨ d ∈ ["yes", "no", "modify"]) := by
  refine ⟨fun d h1 h2 => human_approval_skips_invalid gen fb c s d ds h1 h2,
    human_approval_all_invalid gen fb c s ds, fun h => ?_⟩
  by_contra hno
  push_neg at hno
  exact h (human_approval_all_invalid gen fb c s ds hno)

/-- Witness for C7: the invalid value "maybe" is skipped before a "yes" is
processed, an all-invalid stream leaves the node waiting, and the
successful "yes" run exhibits a valid element in its stream. -/
theorem human_approval_reprompts_until_valid_witness :
    human_approval_agent stubGen "" true sampleState ["maybe", "yes"] =
      human_approval_agent stubGen "" true sampleState ["yes"]
    ∧ human_approval_agent stubGen "" true sampleState ["maybe"] =
      .error .InvalidChoiceError
    ∧ ∃ d ∈ ["yes"], d = "" ∨ d ∈ ["yes", "no", "modify"] :=
  ⟨(human_approval_reprompts_until_valid stubGen "" true sampleState
      ["yes"]).1 "maybe" (by decide) (by decide),
   (human_approval_reprompts_until_valid stubGen "" true sampleState
      ["maybe"]).2.1 (by decide),
   (human_approval_reprompts_until_valid stubGen "" true sampleState
      ["yes"]).2.2 fun hc => Except.noConfusion hc⟩

/-- The six parallel entry nodes, in registration order. -/
def gatherRound : List String :=
  ["flight_search", "hotel_search", "events_search", "restaurant_search",
   "attractions_search", "social_places_search"]

theorem wf_schedule (gen : GenFun) (dsx : List String) (fb : String) (c : Bool) :
    (create_parallelization_workflow gen dsx fb c).schedule =
      [gatherRound, ["consolidate"], ["human_approval"]] := rfl

theorem wf_trace (gen : GenFun) (dsx : List String) (fb : String) (c : Bool) :
    (create_parallelization_workflow gen dsx fb c).trace =
      gatherRound ++ ["consolidate", "human_approval"] := rfl

theorem wf_find_flight (gen : GenFun) (dsx : List String) (fb : String) (c : Bool) :
    (create_parallelization_workflow gen dsx fb c).find "flight_search" =
      some (flight_agent gen) := rfl

theorem wf_find_hotel (gen : GenFun) (dsx : List String) (fb : String) (c : Bool) :
    (create_parallelization_workflow gen dsx fb c).find "hotel_search" =
      some (hotel_agent gen) := rfl

theorem wf_find_events (gen : GenFun) (dsx : List String) (fb : String) (c : Bool) :
    (create_parallelization_workflow gen dsx fb c).find "events_search" =
      some (events_agent gen) := rfl

theorem wf_find_restaurant (gen : GenFun) (dsx : List String) (fb : String) (c : Bool) :
    (create_parallelization_workflow gen dsx fb c).find "restaurant_search" =
      some (restaurant_agent gen) := rfl

theorem wf_find_attractions (gen : GenFun) (dsx : List String) (fb : String) (c : Bool) :
    (create_parallelization_workflow gen dsx fb c).find "attractions_search" =
      some (attractions_agent gen) := rfl

theorem wf_find_social (gen : GenFun) (dsx : List String) (fb : String) (c : Bool) :
    (create_parallelization_workflow gen dsx fb c).find "social_places_search" =
      some (social_places_agent gen) := rfl

theorem runNodes_nil (g : GraphSpec) (s : TravelState) (ps : List StatePatch) :
    runNodes g s [] = .ok ps ↔ ps = [] := by
  simp [runNodes, eq_comm]

/-- One unfolding step of a superstep whose head node is registered. -/
theorem runNodes_cons_ok (g : GraphSpec) (s : TravelState) (n : String)
    (rest : List String) (ps : List StatePatch) (f : NodeFun)
    (hf : g.find n = some f) :
    runNodes g s (n :: rest) = .ok ps ↔
      ∃ r ps', f s = .ok r ∧ runNodes g s rest = .ok ps' ∧ ps = r.2 :: ps' := by
  cases hr : f s with
  | error e => simp [runNodes, hf, hr]
  | ok r =>
    cases hrest : runNodes g s rest with
    | error e => simp [runNodes, hf, hr, hrest]
    | ok ps' => simp [runNodes, hf, hr, hrest, eq_comm]

/-- A superstep containing a failing registered node fails, with the error
of one of its failing members. -/
theorem runNodes_err (g : GraphSpec) (s : TravelState) :
    ∀ round : List String,
      (∀ n ∈ round, ∃ f, g.find n = some f) →
      (∃ n ∈ round, ∃ f e, g.find n = some f ∧ f s = .error e) →
      ∃ e', runNodes g s round = .error e' ∧
        ∃ n ∈ round, ∃ f, g.find n = some f ∧ f s = .error e' := by
  intro round
  induction round with
  | nil => intro _ hex; simp at hex
  | cons n0 rest ih =>
    intro hfind hex
    obtain ⟨f0, hf0⟩ := hfind n0 (by simp)
    cases hr0 : f0 s with
    | error e0 =>
      refine ⟨e0, ?_, n0, by simp, f0, hf0, hr0⟩
      simp [runNodes, hf0, hr0]
    | ok r0 =>
      have hex' : ∃ n ∈ rest, ∃ f e, g.find n = some f ∧ f s = .error e := by
        rcases hex with ⟨n, hn, f, e, hf, he⟩
        rcases List.mem_cons.mp hn with h | h
        · subst h; rw [hf0] at hf; injection hf with hf; subst hf
          rw [hr0] at he; exact absurd he (by simp)
        · exact ⟨n, h, f, e, hf, he⟩
      obtain ⟨e', hrun, n, hn, f, hf, he⟩ :=
        ih (fun n hn => hfind n (by simp [hn])) hex'
      refine ⟨e', ?_, n, by simp [hn], f, hf, he⟩
      simp [runNodes, hf0, hr0, hrun]

/-- Every successful consolidation patch holds only a final plan. -/
theorem consolidate_plan_ok_shape (gen : GenFun) (s : TravelState)
    (r : List VarMap × StatePatch) (h : consolidate_plan gen s = .ok r) :
    ∃ plan, r.2 = { final_plan := some plan } := by
  unfold consolidate_plan at h
  dsimp only [] at h
  repeat' split at h
  all_goals first
    | (simp at h; done)
    | (cases h; exact ⟨_, rfl⟩)

theorem flight_agent_request (gen : GenFun) (s : TravelState) (r)
    (h : flight_agent gen s = .ok r) :
    r.2.destination = none ∧ r.2.dates = none ∧ r.2.budget = none := by
  rw [flight_agent_ok] at h
  obtain ⟨a, -, rfl⟩ := h
  exact ⟨rfl, rfl, rfl⟩

theorem hotel_agent_request (gen : GenFun) (s : TravelState) (r)
    (h : hotel_agent gen s = .ok r) :
    r.2.destination = none ∧ r.2.dates = none ∧ r.2.budget = none := by
  rw [hotel_agent_ok] at h
  obtain ⟨a, -, rfl⟩ := h
  exact ⟨rfl, rfl, rfl⟩

theorem events_agent_request (gen : GenFun) (s : TravelState) (r)
    (h : events_agent gen s = .ok r) :
    r.2.destination = none ∧ r.2.dates = none ∧ r.2.budget = none := by
  rw [events_agent_ok] at h
  obtain ⟨a, -, rfl⟩ := h
  exact ⟨rfl, rfl, rfl⟩

theorem restaurant_agent_request (gen : GenFun) (s : TravelState) (r)
    (h : restaurant_agent gen s = .ok r) :
    r.2.destination = none ∧ r.2.dates = none ∧ r.2.budget = none := by
  rw [restaurant_agent_ok] at h
  obtain ⟨a, -, rfl⟩ := h
  exact ⟨rfl, rfl, rfl⟩

theorem attractions_agent_request (gen : GenFun) (s : TravelState) (r)
    (h : attractions_agent gen s = .ok r) :
    r.2.destination = none ∧ r.2.dates = none ∧ r.2.budget = none := by
  rw [attractions_agent_ok] at h
  obtain ⟨a, -, rfl⟩ := h
  exact ⟨rfl, rfl, rfl⟩

theorem social_places_agent_request (gen : GenFun) (s : TravelState) (r)
    (h : social_places_agent gen s = .ok r) :
    r.2.destination = none ∧ r.2.dates = none ∧ r.2.budget = none := by
  rw [social_places_agent_ok] at h
  obtain ⟨a, -, rfl⟩ := h
  exact ⟨rfl, rfl, rfl⟩

theorem consolidate_plan_request (gen : GenFun) (s : TravelState) (r)
    (h : consolidate_plan gen s = .ok r) :
    r.2.destination = none ∧ r.2.dates = none ∧ r.2.budget = none := by
  obtain ⟨plan, hp⟩ := consolidate_plan_ok_shape gen s r h
  rw [hp]
  exact ⟨rfl, rfl, rfl⟩

theorem human_approval_request (gen : GenFun) (fb : String) (c : Bool)
    (s : TravelState) (dsx : List String) (r)
    (h : human_approval_agent gen fb c s dsx = .ok r) :
    r.2.destination = none ∧ r.2.dates = none ∧ r.2.budget = none := by
  rcases human_approval_ok_cases gen fb c s dsx r h with h | h | ⟨rp, -, h | h⟩ <;>
    subst h <;> exact ⟨rfl, rfl, rfl⟩

/-- A patch that carries none of the three request keys leaves them
untouched under the merge. -/
theorem patch_preserves_request (s : TravelState) (p : StatePatch)
    (h1 : p.destination = none) (h2 : p.dates = none) (h3 : p.budget = none) :
    (applyPatch s p).destination = s.destination ∧
    (applyPatch s p).dates = s.dates ∧ (applyPatch s p).budget = s.budget := by
  simp [applyPatch, h1, h2, h3]

/-- Folding patches that never carry the request keys preserves them. -/
theorem foldl_applyPatch_request :
    ∀ (ps : List StatePatch) (s : TravelState),
      (∀ p ∈ ps, p.destination = none ∧ p.dates = none ∧ p.budget = none) →
      (ps.foldl applyPatch s).destination = s.destination ∧
      (ps.foldl applyPatch s).dates = s.dates ∧
      (ps.foldl applyPatch s).budget = s.budget := by
  intro ps
  induction ps with
  | nil => intro s _; exact ⟨rfl, rfl, rfl⟩
  | cons p tl ih =>
    intro s hall
    have hp := hall p (by simp)
    have hstep := patch_preserves_request s p hp.1 hp.2.1 hp.2.2
    have htl := ih (applyPatch s p) fun q hq => hall q (by simp [hq])
    exact ⟨htl.1.trans hstep.1, htl.2.1.trans hstep.2.1, htl.2.2.trans hstep.2.2⟩

/-- Patches produced by one superstep all come from registered nodes run on
the pre-round state. -/
theorem runNodes_patches (g : GraphSpec) (s : TravelState)
    (hall : ∀ n f, g.find n = some f → ∀ r, f s = .ok r →
      r.2.destination = none ∧ r.2.dates = none ∧ r.2.budget = none) :
    ∀ (round : List String) (ps : List StatePatch),
      runNodes g s round = .ok ps →
      ∀ p ∈ ps, p.destination = none ∧ p.dates = none ∧ p.budget = none := by
  intro round
  induction round with
  | nil => intro ps h; rw [runNodes_nil] at h; subst h; simp
  | cons n rest ih =>
    intro ps h
    cases hf : g.find n with
    | none => rw [runNodes, hf] at h; exact absurd h (by simp)
    | some f =>
      rw [runNodes_cons_ok g s n rest ps f hf] at h
      obtain ⟨r, ps', hr, hrest, rfl⟩ := h
      intro p hp
      rcases List.mem_cons.mp hp with rfl | hp'
      · exact hall n f hf r hr
      · exact ih ps' hrest p hp'

/-- If no registered node ever writes the request keys, executing any list
of supersteps preserves them. -/
theorem execRounds_request (g : GraphSpec)
    (hall : ∀ n f, g.find n = some f → ∀ s r, f s = .ok r →
      r.2.destination = none ∧ r.2.dates = none ∧ r.2.budget = none) :
    ∀ (rounds : List (List String)) (s : TravelState) (log : List String)
      (s' : TravelState),
      execRounds g rounds s = (log, .ok s') →
      s'.destination = s.destination ∧ s'.dates = s.dates ∧
        s'.budget = s.budget := by
  intro rounds
  induction rounds with
  | nil =>
    intro s log s' h
    rw [execRounds] at h
    injection h with h1 h2
    injection h2 with h2
    subst h2
    exact ⟨rfl, rfl, rfl⟩
  | cons r rs ih =>
    intro s log s' h
    rw [execRounds] at h
    cases hrun : runNodes g s r with
    | error e =>
      rw [hrun] at h
      injection h with h1 h2
      exact absurd h2 (by simp)
    | ok ps =>
      rw [hrun] at h
      injection h with h1 h2
      have hnext := ih (ps.foldl applyPatch s) _ s'
        (by rw [Prod.ext_iff]; exact ⟨rfl, h2⟩)
      have hfold := foldl_applyPatch_request ps s
        (runNodes_patches g s (fun n f hf => hall n f hf s) r ps hrun)
      exact ⟨hnext.1.trans hfold.1, hnext.2.1.trans hfold.2.1,
        hnext.2.2.trans hfold.2.2⟩

/-- A successful lookup comes from a registered node. -/
theorem GraphSpec.find_mem (g : GraphSpec) (n : String) (f : NodeFun)
    (h : g.find n = some f) : ∃ kv ∈ g.nodes, kv.2 = f := by
  unfold GraphSpec.find at h
  cases hfq : g.nodes.find? (fun kv => kv.1 == n) with
  | none => rw [hfq] at h; exact absurd h (by simp)
  | some kv =>
    rw [hfq] at h
    refine ⟨kv, List.mem_of_find?_eq_some hfq, ?_⟩
    simpa using h

/-- No registered node of the workflow ever writes destination, dates or
budget. -/
theorem wf_nodes_request (gen : GenFun) (dsx : List String) (fb : String)
    (c : Bool) :
    ∀ n f, (create_parallelization_workflow gen dsx fb c).find n = some f →
      ∀ s r, f s = .ok r →
        r.2.destination = none ∧ r.2.dates = none ∧ r.2.budget = none := by
  intro n f hf s r hr
  obtain ⟨kv, hkv, rfl⟩ :=
    GraphSpec.find_mem (create_parallelization_workflow gen dsx fb c) n f hf
  simp only [create_parallelization_workflow, List.mem_cons,
    List.not_mem_nil, or_false] at hkv
  rcases hkv with h | h | h | h | h | h | h | h <;> subst h
  · exact flight_agent_request gen s r hr
  · exact hotel_agent_request gen s r hr
  · exact events_agent_request gen s r hr
  · exact restaurant_agent_request gen s r hr
  · exact attractions_agent_request gen s r hr
  · exact social_places_agent_request gen s r hr
  · exact consolidate_plan_request gen s r hr
  · exact human_approval_request gen fb c s dsx r hr

/-- C3: in every execution of the compiled workflow the schedule runs the
six gather nodes first, then consolidate exactly once, then human_approval;
consolidate appears exactly once in the trace, strictly after every gather
node and strictly before human_approval; and whenever the gather superstep
succeeds, the state merged before consolidate is invoked has all six result
fields populated. -/
theorem consolidate_runs_once_after_all_gathers (gen : GenFun)
    (dsx : List String) (fb : String) (c : Bool) :
    (create_parallelization_workflow gen dsx fb c).schedule =
      [gatherRound, ["consolidate"], ["human_approval"]]
    ∧ (create_parallelization_workflow gen dsx fb c).trace =
        gatherRound ++ ["consolidate", "human_approval"]
    ∧ (create_parallelization_workflow gen dsx fb c).trace.count "consolidate" = 1
    ∧ "consolidate" ∉ gatherRound
    ∧ "human_approval" ∉ gatherRound
    ∧ (∀ (s : TravelState) (ps : List StatePatch),
        runNodes (create_parallelization_workflow gen dsx fb c) s gatherRound =
          .ok ps →
        (ps.foldl applyPatch s).flight_results.isSome = true ∧
        (ps.foldl applyPatch s).hotel_results.isSome = true ∧
        (ps.foldl applyPatch s).events_results.isSome = true ∧
        (ps.foldl applyPatch s).restaurant_results.isSome = true ∧
        (ps.foldl applyPatch s).attractions_results.isSome = true ∧
        (ps.foldl applyPatch s).social_places_results.isSome = true) := by
  refine ⟨wf_schedule gen dsx fb c, wf_trace gen dsx fb c, ?_, by decide,
    by decide, ?_⟩
  · rw [wf_trace]; decide
  · intro s ps h
    rw [show gatherRound = "flight_search" :: "hotel_search" :: "events_search" ::
        "restaurant_search" :: "attractions_search" ::
        "social_places_search" :: [] from rfl] at h
    rw [runNodes_cons_ok _ _ _ _ _ _ (wf_find_flight gen dsx fb c)] at h
    obtain ⟨r1, ps1, h1, h, rfl⟩ := h
    rw [runNodes_cons_ok _ _ _ _ _ _ (wf_find_hotel gen dsx fb c)] at h
    obtain ⟨r2, ps2, h2, h, rfl⟩ := h
    rw [runNodes_cons_ok _ _ _ _ _ _ (wf_find_events gen dsx fb c)] at h
    obtain ⟨r3, ps3, h3, h, rfl⟩ := h
    rw [runNodes_cons_ok _ _ _ _ _ _ (wf_find_restaurant gen dsx fb c)] at h
    obtain ⟨r4, ps4, h4, h, rfl⟩ := h
    rw [runNodes_cons_ok _ _ _ _ _ _ (wf_find_attractions gen dsx fb c)] at h
    obtain ⟨r5, ps5, h5, h, rfl⟩ := h
    rw [runNodes_cons_ok _ _ _ _ _ _ (wf_find_social gen dsx fb c)] at h
    obtain ⟨r6, ps6, h6, h, rfl⟩ := h
    rw [runNodes_nil] at h
    subst h
    rw [flight_agent_ok] at h1
    obtain ⟨a1, -, rfl⟩ := h1
    rw [hotel_agent_ok] at h2
    obtain ⟨a2, -, rfl⟩ := h2
    rw [events_agent_ok] at h3
    obtain ⟨a3, -, rfl⟩ := h3
    rw [restaurant_agent_ok] at h4
    obtain ⟨a4, -, rfl⟩ := h4
    rw [attractions_agent_ok] at h5
    obtain ⟨a5, -, rfl⟩ := h5
    rw [social_places_agent_ok] at h6
    obtain ⟨a6, -, rfl⟩ := h6
    simp [applyPatch, overwriteField]

/-- The patches the six gather nodes produce on the sample request with the
echo stub, in superstep order. -/
def samplePatches : List StatePatch :=
  [{ flight_results :=
       some ⟨mock_flight_search "Barcelona" "March 15-20, 2024" "$2000",
             "Test analysis"⟩ },
   { hotel_results :=
       some ⟨mock_hotel_search "Barcelona" "March 15-20, 2024" "$2000",
             "Test analysis"⟩ },
   { events_results :=
       some ⟨mock_events_search "Barcelona" "March 15-20, 2024",
             "Test analysis"⟩ },
   { restaurant_results :=
       some ⟨mock_restaurant_search "Barcelona", "Test analysis"⟩ },
   { attractions_results :=
       some ⟨.obj [("llm_generated", .bool true)], "Test analysis"⟩ },
   { social_places_results :=
       some ⟨.obj [("llm_generated", .bool true)], "Test analysis"⟩ }]

/-- Witness for C3: the gather superstep on the sample request with the
echo stub merges all six result fields before consolidate runs. -/
theorem consolidate_runs_once_after_all_gathers_witness :
    (samplePatches.foldl applyPatch sampleState).flight_results.isSome = true ∧
    (samplePatches.foldl applyPatch sampleState).hotel_results.isSome = true ∧
    (samplePatches.foldl applyPatch sampleState).events_results.isSome = true ∧
    (samplePatches.foldl applyPatch sampleState).restaurant_results.isSome = true ∧
    (samplePatches.foldl applyPatch sampleState).attractions_results.isSome = true ∧
    (samplePatches.foldl applyPatch sampleState).social_places_results.isSome = true :=
  (consolidate_runs_once_after_all_gathers stubGen ["yes"] "" true).2.2.2.2.2
    sampleState samplePatches rfl

/-- C6: a failing text-generation call makes the gather node fail with the
same GenerationError (neither retried nor swallowed); and in the workflow,
when the single generation client fails only with GenerationError and fails
on at least one gather call, execution stops after the gather superstep
with that GenerationError — no patch of the round is merged and neither
consolidate nor human_approval is ever invoked. -/
theorem generation_failure_propagates :
    (∀ (gen : GenFun) (s : TravelState) (m : String),
       gen (flightVars s) = .error (.GenerationError m) →
       flight_agent gen s = .error (.GenerationError m))
    ∧ (∀ (gen : GenFun) (s : TravelState) (m : String),
       gen (hotelVars s) = .error (.GenerationError m) →
       hotel_agent gen s = .error (.GenerationError m))
    ∧ (∀ (gen : GenFun) (s : TravelState) (m : String),
       gen (eventsVars s) = .error (.GenerationError m) →
       events_agent gen s = .error (.GenerationError m))
    ∧ (∀ (gen : GenFun) (s : TravelState) (m : String),
       gen (restaurantVars s) = .error (.GenerationError m) →
       restaurant_agent gen s = .error (.GenerationError m))
    ∧ (∀ (gen : GenFun) (s : TravelState) (m : String),
       gen (attractionsVars s) = .error (.GenerationError m) →
       attractions_agent gen s = .error (.GenerationError m))
    ∧ (∀ (gen : GenFun) (s : TravelState) (m : String),
       gen (socialPlacesVars s) = .error (.GenerationError m) →
       social_places_agent gen s = .error (.GenerationError m))
    ∧ (∀ (gen : GenFun) (dsx : List String) (fb : String) (c : Bool)
        (s : TravelState),
        (∀ v e, gen v = .error e → ∃ m, e = .GenerationError m) →
        (∃ v ∈ [flightVars s, hotelVars s, eventsVars s, restaurantVars s,
                attractionsVars s, socialPlacesVars s], ∃ e, gen v = .error e) →
        ∃ m, (create_parallelization_workflow gen dsx fb c).execute s =
            (gatherRound, .error (.GenerationError m))
          ∧ "consolidate" ∉ gatherRound ∧ "human_approval" ∉ gatherRound) := by
  refine ⟨fun gen s m h => (flight_agent_error gen s _).mpr h,
    fun gen s m h => (hotel_agent_error gen s _).mpr h,
    fun gen s m h => (events_agent_error gen s _).mpr h,
    fun gen s m h => (restaurant_agent_error gen s _).mpr h,
    fun gen s m h => (attractions_agent_error gen s _).mpr h,
    fun gen s m h => (social_places_agent_error gen s _).mpr h, ?_⟩
  intro gen dsx fb c s hgen hfail
  have hfind : ∀ n ∈ gatherRound,
      ∃ f, (create_parallelization_workflow gen dsx fb c).find n = some f := by
    intro n hn
    simp only [gatherRound, List.mem_cons, List.not_mem_nil, or_false] at hn
    rcases hn with rfl | rfl | rfl | rfl | rfl | rfl
    · exact ⟨_, wf_find_flight gen dsx fb c⟩
    · exact ⟨_, wf_find_hotel gen dsx fb c⟩
    · exact ⟨_, wf_find_events gen dsx fb c⟩
    · exact ⟨_, wf_find_restaurant gen dsx fb c⟩
    · exact ⟨_, wf_find_attractions gen dsx fb c⟩
    · exact ⟨_, wf_find_social gen dsx fb c⟩
  have hex : ∃ n ∈ gatherRound, ∃ f e,
      (create_parallelization_workflow gen dsx fb c).find n = some f ∧
        f s = .error e := by
    rcases hfail with ⟨v, hv, e, hve⟩
    simp only [List.mem_cons, List.not_mem_nil, or_false] at hv
    rcases hv with rfl | rfl | rfl | rfl | rfl | rfl
    · exact ⟨"flight_search", by simp [gatherRound], _, e,
        wf_find_flight gen dsx fb c, (flight_agent_error gen s e).mpr hve⟩
    · exact ⟨"hotel_search", by simp [gatherRound], _, e,
        wf_find_hotel gen dsx fb c, (hotel_agent_error gen s e).mpr hve⟩
    · exact ⟨"events_search", by simp [gatherRound], _, e,
        wf_find_events gen dsx fb c, (events_agent_error gen s e).mpr hve⟩
    · exact ⟨"restaurant_search", by simp [gatherRound], _, e,
        wf_find_restaurant gen dsx fb c, (restaurant_agent_error gen s e).mpr hve⟩
    · exact ⟨"attractions_search", by simp [gatherRound], _, e,
        wf_find_attractions gen dsx fb c, (attractions_agent_error gen s e).mpr hve⟩
    · exact ⟨"social_places_search", by simp [gatherRound], _, e,
        wf_find_social gen dsx fb c, (social_places_agent_error gen s e).mpr hve⟩
  obtain ⟨e', hrun, n, hn, f, hf, he⟩ := runNodes_err _ s gatherRound hfind hex
  have hge : ∃ m, e' = .GenerationError m := by
    simp only [gatherRound, List.mem_cons, List.not_mem_nil, or_false] at hn
    rcases hn with rfl | rfl | rfl | rfl | rfl | rfl
    · rw [wf_find_flight gen dsx fb c] at hf
      injection hf with hf
      subst hf
      exact hgen _ _ ((flight_agent_error gen s e').mp he)
    · rw [wf_find_hotel gen dsx fb c] at hf
      injection hf with hf
      subst hf
      exact hgen _ _ ((hotel_agent_error gen s e').mp he)
    · rw [wf_find_events gen dsx fb c] at hf
      injection hf with hf
      subst hf
      exact hgen _ _ ((events_agent_error gen s e').mp he)
    · rw [wf_find_restaurant gen dsx fb c] at hf
      injection hf with hf
      subst hf
      exact hgen _ _ ((restaurant_agent_error gen s e').mp he)
    · rw [wf_find_attractions gen dsx fb c] at hf
      injection hf with hf
      subst hf
      exact hgen _ _ ((attractions_agent_error gen s e').mp he)
    · rw [wf_find_social gen dsx fb c] at hf
      injection hf with hf
      subst hf
      exact hgen _ _ ((social_places_agent_error gen s e').mp he)
  obtain ⟨m, rfl⟩ := hge
  refine ⟨m, ?_, by decide, by decide⟩
  rw [GraphSpec.execute, wf_schedule]
  rw [execRounds, hrun]

/-- A generation client that always fails with a GenerationError. -/
def failGen : GenFun := fun _ => .error (.GenerationError "boom")

/-- Witness for C6: with the always-failing client on the sample request,
execution surfaces the GenerationError after the gather round and
consolidate is never invoked. -/
theorem generation_failure_propagates_witness :
    ∃ m, (create_parallelization_workflow failGen ["yes"] "" true).execute
        sampleState = (gatherRound, .error (.GenerationError m))
      ∧ "consolidate" ∉ gatherRound ∧ "human_approval" ∉ gatherRound :=
  generation_failure_propagates.2.2.2.2.2.2 failGen ["yes"] "" true sampleState
    (fun v e h => ⟨"boom", by cases h; rfl⟩)
    ⟨flightVars sampleState, by simp, .GenerationError "boom", rfl⟩

/-- C9: no node of the workflow ever writes the request keys — every
successful patch of the six gather nodes, of consolidate and of
human_approval carries none of destination, dates, budget, so merging it
leaves the three request fields unchanged, and a full successful execution
of the workflow returns a state whose destination, dates and budget equal
the initial ones. -/
theorem request_fields_never_written :
    (∀ (gen : GenFun) (s : TravelState) (r), flight_agent gen s = .ok r →
      r.2.destination = none ∧ r.2.dates = none ∧ r.2.budget = none ∧
      (applyPatch s r.2).destination = s.destination ∧
      (applyPatch s r.2).dates = s.dates ∧ (applyPatch s r.2).budget = s.budget)
    ∧ (∀ (gen : GenFun) (s : TravelState) (r), hotel_agent gen s = .ok r →
      r.2.destination = none ∧ r.2.dates = none ∧ r.2.budget = none ∧
      (applyPatch s r.2).destination = s.destination ∧
      (applyPatch s r.2).dates = s.dates ∧ (applyPatch s r.2).budget = s.budget)
    ∧ (∀ (gen : GenFun) (s : TravelState) (r), events_agent gen s = .ok r →
      r.2.destination = none ∧ r.2.dates = none ∧ r.2.budget = none ∧
      (applyPatch s r.2).destination = s.destination ∧
      (applyPatch s r.2).dates = s.dates ∧ (applyPatch s r.2).budget = s.budget)
    ∧ (∀ (gen : GenFun) (s : TravelState) (r), restaurant_agent gen s = .ok r →
      r.2.destination = none ∧ r.2.dates = none ∧ r.2.budget = none ∧
      (applyPatch s r.2).destination = s.destination ∧
      (applyPatch s r.2).dates = s.dates ∧ (applyPatch s r.2).budget = s.budget)
    ∧ (∀ (gen : GenFun) (s : TravelState) (r), attractions_agent gen s = .ok r →
      r.2.destination = none ∧ r.2.dates = none ∧ r.2.budget = none ∧
      (applyPatch s r.2).destination = s.destination ∧
      (applyPatch s r.2).dates = s.dates ∧ (applyPatch s r.2).budget = s.budget)
    ∧ (∀ (gen : GenFun) (s : TravelState) (r), social_places_agent gen s = .ok r →
      r.2.destination = none ∧ r.2.dates = none ∧ r.2.budget = none ∧
      (applyPatch s r.2).destination = s.destination ∧
      (applyPatch s r.2).dates = s.dates ∧ (applyPatch s r.2).budget = s.budget)
    ∧ (∀ (gen : GenFun) (s : TravelState) (r), consolidate_plan gen s = .ok r →
      r.2.destination = none ∧ r.2.dates = none ∧ r.2.budget = none ∧
      (applyPatch s r.2).destination = s.destination ∧
      (applyPatch s r.2).dates = s.dates ∧ (applyPatch s r.2).budget = s.budget)
    ∧ (∀ (gen : GenFun) (fb : String) (c : Bool) (s : TravelState)
        (dsx : List String) (r), human_approval_agent gen fb c s dsx = .ok r →
      r.2.destination = none ∧ r.2.dates = none ∧ r.2.budget = none ∧
      (applyPatch s r.2).destination = s.destination ∧
      (applyPatch s r.2).dates = s.dates ∧ (applyPatch s r.2).budget = s.budget)
    ∧ (∀ (gen : GenFun) (dsx : List String) (fb : String) (c : Bool)
        (s : TravelState) (log : List String) (s' : TravelState),
        (create_parallelization_workflow gen dsx fb c).execute s =
          (log, .ok s') →
        s'.destination = s.destination ∧ s'.dates = s.dates ∧
          s'.budget = s.budget) := by
  refine ⟨?_, ?_, ?_, ?_, ?_, ?_, ?_, ?_, ?_⟩
  · intro gen s r h
    obtain ⟨h1, h2, h3⟩ := flight_agent_request gen s r h
    obtain ⟨h4, h5, h6⟩ := patch_preserves_request s r.2 h1 h2 h3
    exact ⟨h1, h2, h3, h4, h5, h6⟩
  · intro gen s r h
    obtain ⟨h1, h2, h3⟩ := hotel_agent_request gen s r h
    obtain ⟨h4, h5, h6⟩ := patch_preserves_request s r.2 h1 h2 h3
    exact ⟨h1, h2, h3, h4, h5, h6⟩
  · intro gen s r h
    obtain ⟨h1, h2, h3⟩ := events_agent_request gen s r h
    obtain ⟨h4, h5, h6⟩ := patch_preserves_request s r.2 h1 h2 h3
    exact ⟨h1, h2, h3, h4, h5, h6⟩
  · intro gen s r h
    obtain ⟨h1, h2, h3⟩ := restaurant_agent_request gen s r h
    obtain ⟨h4, h5, h6⟩ := patch_preserves_request s r.2 h1 h2 h3
    exact ⟨h1, h2, h3, h4, h5, h6⟩
  · intro gen s r h
    obtain ⟨h1, h2, h3⟩ := attractions_agent_request gen s r h
    obtain ⟨h4, h5, h6⟩ := patch_preserves_request s r.2 h1 h2 h3
    exact ⟨h1, h2, h3, h4, h5, h6⟩
  · intro gen s r h
    obtain ⟨h1, h2, h3⟩ := social_places_agent_request gen s r h
    obtain ⟨h4, h5, h6⟩ := patch_preserves_request s r.2 h1 h2 h3
    exact ⟨h1, h2, h3, h4, h5, h6⟩
  · intro gen s r h
    obtain ⟨h1, h2, h3⟩ := consolidate_plan_request gen s r h
    obtain ⟨h4, h5, h6⟩ := patch_preserves_request s r.2 h1 h2 h3
    exact ⟨h1, h2, h3, h4, h5, h6⟩
  · intro gen fb c s dsx r h
    obtain ⟨h1, h2, h3⟩ := human_approval_request gen fb c s dsx r h
    obtain ⟨h4, h5, h6⟩ := patch_preserves_request s r.2 h1 h2 h3
    exact ⟨h1, h2, h3, h4, h5, h6⟩
  · intro gen dsx fb c s log s' h
    rw [GraphSpec.execute] at h
    exact execRounds_request _ (wf_nodes_request gen dsx fb c) _ s log s' h

/-- The flight patch on the sample request with the echo stub. -/
def sampleFlightPatch : StatePatch :=
  { flight_results :=
      some ⟨mock_flight_search "Barcelona" "March 15-20, 2024" "$2000",
            "Test analysis"⟩ }

/-- Witness for C9: the flight node's sample patch carries no request key
and merging it leaves the request fields of the sample state unchanged. -/
theorem request_fields_never_written_witness :
    sampleFlightPatch.destination = none ∧ sampleFlightPatch.dates = none ∧
    sampleFlightPatch.budget = none ∧
    (applyPatch sampleState sampleFlightPatch).destination =
      sampleState.destination ∧
    (applyPatch sampleState sampleFlightPatch).dates = sampleState.dates ∧
    (applyPatch sampleState sampleFlightPatch).budget = sampleState.budget :=
  request_fields_never_written.1 stubGen sampleState
    ([flightVars sampleState], sampleFlightPatch) rfl

/-- C10: the mock search providers do not depend on the budget argument —
mock_flight_search and mock_hotel_search give the same result for any two
budgets, and mock_restaurant_search, lifted to the common
(destination, dates, budget) signature, depends on neither dates nor
budget since the source function takes only the destination. -/
theorem mock_searches_ignore_budget (destination dates b1 b2 d1 d2 : String) :
    mock_flight_search destination dates b1 = mock_flight_search destination dates b2
    ∧ mock_hotel_search destination dates b1 = mock_hotel_search destination dates b2
    ∧ (fun (dest _dts _bdg : String) => mock_restaurant_search dest)
        destination d1 b1 =
      (fun (dest _dts _bdg : String) => mock_restaurant_search dest)
        destination d2 b2 :=
  ⟨rfl, rfl, rfl⟩

end TravelAgent
